import Mathlib

/-!
# Channel monitor (`main.go`): a shallow embedding

The program is three HTTP round trips wrapped in a ticker loop.  Everything it
does is an effect, so the embedding threads an explicit `World` through every
function:

* `World.remote` is the stream of responses the remote side will give to the
  upcoming requests, in the order the requests are issued (`remote 0` answers
  the next request).  Nothing is assumed about how a response depends on the
  request, so every server behaviour along one run is covered.
* `World.trace` is everything the process has done so far, oldest first:
  requests sent, `fmt` output, `log` output.

Library code (`resty`, `encoding/json`, `fmt`, `log`, `godotenv`) is not part of
the repository.  It is represented by what the program observes of it:

* a request either fails with an error value or yields a body;
* a body is represented by the outcome of `json.Unmarshal(body, &result)` for
  `result : map[string]interface{}`: an error, a nil map (JSON `null`), or the
  decoded map;
* output is recorded per print statement, with the arguments handed to the
  statement (the rendering of `%+v` and the time stamp that `log` puts in front
  of a line are left to the libraries).
-/

namespace TwitchMonitor

/-! ## Data model -/

/-- A Go `error` value, represented by the text `%v` prints for it. -/
structure GoError where
  text : String
deriving DecidableEq, Repr

/-- A decoded JSON value, as `encoding/json` stores it in an `interface{}`:
`nil`, `bool`, `float64` (kept as its literal), `string`, `[]interface{}` or
`map[string]interface{}`.  A map is an association list read with `List.lookup`. -/
inductive JSON where
  | null
  | bool (b : Bool)
  | number (literal : String)
  | str (s : String)
  | arr (items : List JSON)
  | obj (fields : List (String × JSON))

/-- A response body, seen through `json.Unmarshal(body, &result)` with
`result : map[string]interface{}`. -/
inductive Body where
  /-- The call returns an error: the bytes are not JSON, or the top-level value
  is not an object. -/
  | undecodable (err : GoError)
  /-- The body is the JSON `null`: `Unmarshal` succeeds and leaves the map nil. -/
  | null
  /-- The body is a JSON object. -/
  | object (fields : List (String × JSON))

/-- What `client.R()....Get/Post(url)` returns: `(resp, err)`. -/
inductive Response where
  | failed (err : GoError)
  | ok (body : Body)

inductive Method where
  | GET
  | POST
deriving DecidableEq, Repr

/-- An outgoing request, as built with `SetHeader`, `SetQueryParam`,
`SetFormData` (entries in source order). -/
structure Request where
  method : Method
  url : String
  headers : List (String × String)
  query : List (String × String)
  form : List (String × String)
deriving DecidableEq, Repr

/-- One observable action of the process. -/
inductive Event where
  /-- A request was sent. -/
  | request (req : Request)
  /-- The statement `fmt.Println(line)`. -/
  | println (line : String)
  /-- The statement `fmt.Printf("Channel Data: %+v\n", channelData)`. -/
  | printChannelData (channelData : List (String × JSON))
  /-- The statement `log.Printf(...)`, with the formatted message. -/
  | logPrintf (message : String)
  /-- The statement `log.Fatalf(...)`: the message is logged and the process exits
  with code 1. -/
  | logFatalf (message : String)

structure World where
  remote : Nat → Response
  trace : List Event

/-- The constant `channelName`. -/
def channelName : String := "zackrawrr"

/-! ## Library operations -/

/-- Send a request: it is recorded, and the next response of the remote side is
returned. -/
def send (req : Request) (w : World) : Response × World :=
  (w.remote 0, { remote := fun n => w.remote (n + 1), trace := w.trace ++ [Event.request req] })

/-- The function `json.Unmarshal(body, &result)` for a `map[string]interface{}`. -/
def unmarshal : Body → Except GoError (List (String × JSON))
  | Body.undecodable err => Except.error err
  | Body.null => Except.ok []
  | Body.object fields => Except.ok fields

/-- The function `fmt.Errorf` with a constant format. -/
def errorf (text : String) : GoError := ⟨text⟩

/-- Append one output event. -/
def emit (e : Event) (w : World) : World :=
  { w with trace := w.trace ++ [e] }

/-! ## The program -/

/-- The request of `getOAuthToken`. -/
def tokenRequest (clientID clientSecret : String) : Request :=
  { method := Method.POST
    url := "https://id.twitch.tv/oauth2/token"
    headers := []
    query := []
    form := [("client_id", clientID), ("client_secret", clientSecret),
             ("grant_type", "client_credentials")] }

/-- The request of `getChannelData`. -/
def usersRequest (accessToken clientID : String) : Request :=
  { method := Method.GET
    url := "https://api.twitch.tv/helix/users"
    headers := [("Client-ID", clientID), ("Authorization", "Bearer " ++ accessToken)]
    query := [("login", channelName)]
    form := [] }

/-- The request of `isChannelLive`. -/
def streamsRequest (accessToken clientID userID : String) : Request :=
  { method := Method.GET
    url := "https://api.twitch.tv/helix/streams"
    headers := [("Client-ID", clientID), ("Authorization", "Bearer " ++ accessToken)]
    query := [("user_id", userID)]
    form := [] }

/-- The function `getOAuthToken`. -/
def getOAuthToken (clientID clientSecret : String) (w : World) :
    Except GoError String × World :=
  match send (tokenRequest clientID clientSecret) w with
  | (Response.failed err, w1) => (Except.error err, w1)
  | (Response.ok body, w1) =>
    match unmarshal body with
    | Except.error err => (Except.error err, w1)
    | Except.ok result =>
      match result.lookup "access_token" with
      | some (JSON.str token) => (Except.ok token, w1)
      | _ => (Except.error (errorf "failed to retrieve access token"), w1)

/-- The function `getChannelData`. -/
def getChannelData (accessToken clientID : String) (w : World) :
    Except GoError (List (String × JSON)) × World :=
  match send (usersRequest accessToken clientID) w with
  | (Response.failed err, w1) => (Except.error err, w1)
  | (Response.ok body, w1) =>
    match unmarshal body with
    | Except.error err => (Except.error err, w1)
    | Except.ok result =>
      match result.lookup "data" with
      | some (JSON.arr []) => (Except.error (errorf "no data found for channel"), w1)
      | some (JSON.arr (first :: _)) =>
        match first with
        | JSON.obj channelData =>
          (Except.ok channelData, emit (Event.printChannelData channelData) w1)
        | _ => (Except.error (errorf "invalid data format for channel"), w1)
      | _ => (Except.error (errorf "no data found for channel"), w1)

/-- The function `isChannelLive`. -/
def isChannelLive (accessToken clientID : String) (w : World) :
    Except GoError Bool × World :=
  match getChannelData accessToken clientID w with
  | (Except.error err, w1) => (Except.error err, w1)
  | (Except.ok channelData, w1) =>
    match channelData.lookup "id" with
    | some (JSON.str userID) =>
      match send (streamsRequest accessToken clientID userID) w1 with
      | (Response.failed err, w2) => (Except.error err, w2)
      | (Response.ok body, w2) =>
        match unmarshal body with
        | Except.error err => (Except.error err, w2)
        | Except.ok result =>
          match result.lookup "data" with
          | some (JSON.arr data) => (Except.ok (decide (data.length > 0)), w2)
          | _ => (Except.error (errorf "invalid data format for streams"), w2)
    | _ => (Except.error (errorf "unable to retrieve channel ID"), w1)

/-- The function `monitorChannel`. -/
def monitorChannel (clientID clientSecret : String) (w : World) : World :=
  match getOAuthToken clientID clientSecret w with
  | (Except.error err, w1) =>
    emit (Event.logPrintf ("Error fetching OAuth token: " ++ err.text)) w1
  | (Except.ok accessToken, w1) =>
    match isChannelLive accessToken clientID w1 with
    | (Except.error err, w2) =>
      emit (Event.logPrintf ("Error checking if channel is live: " ++ err.text)) w2
    | (Except.ok live, w2) =>
      if live then emit (Event.println "The channel is live!") w2
      else emit (Event.println "The channel is not live.") w2

/-- How `main` stands once its synchronous part is over. -/
inductive Process where
  /-- The process has exited with the given code (`log.Fatalf`). -/
  | exited (code : Nat) (w : World)
  /-- The function `main` has reached `select {}`; the ticker goroutine keeps
  running cycles. -/
  | parked (clientID clientSecret : String) (w : World)

/-- The function `main` up to `select {}`.  `loadErr` is what `godotenv.Load()`
returns, `getenv` is `os.Getenv` on the environment after the load. -/
def main (loadErr : Option GoError) (getenv : String → String) (w : World) : Process :=
  match loadErr with
  | some err => Process.exited 1 (emit (Event.logFatalf ("Error loading .env file: " ++ err.text)) w)
  | none =>
    let clientID := getenv "CLIENT_ID"
    let clientSecret := getenv "CLIENT_SECRET"
    if clientID = "" ∨ clientSecret = "" then
      Process.exited 1
        (emit (Event.logFatalf "CLIENT_ID and CLIENT_SECRET must be set in the environment") w)
    else
      let w1 := monitorChannel clientID clientSecret w
      let w2 := (getChannelData clientID clientSecret w1).2
      Process.parked clientID clientSecret w2

/-- The ticker goroutine after `n` ticks (`for range ticker.C`), each tick running
one cycle to its end before the next one starts. -/
def ticks (clientID clientSecret : String) : Nat → World → World
  | 0, w => w
  | n + 1, w => ticks clientID clientSecret n (monitorChannel clientID clientSecret w)

/-- The world in which the next response is dropped unread: what remains for
later cycles when one request is answered. -/
def skipNext (w : World) : World :=
  { remote := fun n => w.remote (n + 1), trace := w.trace }

/-- A world with no history whose first three responses are the given ones. -/
def replay (r0 r1 r2 : Response) : World :=
  { remote := fun n =>
      match n with
      | 0 => r0
      | 1 => r1
      | _ => r2
    trace := [] }

/-- Sample token response. -/
def sampleTokenResponse : Response :=
  Response.ok (Body.object [("access_token", JSON.str "tok123"), ("expires_in", JSON.number "5011271"),
    ("token_type", JSON.str "bearer")])

/-- Sample user-lookup response with one record. -/
def sampleUserResponse : Response :=
  Response.ok (Body.object [("data", JSON.arr [JSON.obj [("id", JSON.str "12345"),
    ("login", JSON.str "zackrawrr")]])])

/-- Sample stream-lookup response with one active stream. -/
def sampleLiveResponse : Response :=
  Response.ok (Body.object [("data", JSON.arr [JSON.obj [("user_id", JSON.str "12345"),
    ("type", JSON.str "live")]])])

/-- Sample response with an empty `data` array. -/
def sampleEmptyResponse : Response :=
  Response.ok (Body.object [("data", JSON.arr [])])

/-- Sample error body, as sent with a 401 status: an object without `data` and
without `access_token`. -/
def sampleUnauthorized : Response :=
  Response.ok (Body.object [("error", JSON.str "Unauthorized"), ("status", JSON.number "401"),
    ("message", JSON.str "Invalid OAuth token")])

/-- Sample world: the channel is live. -/
def liveWorld : World := replay sampleTokenResponse sampleUserResponse sampleLiveResponse

/-- Sample world: the channel exists and is offline. -/
def offlineWorld : World := replay sampleTokenResponse sampleUserResponse sampleEmptyResponse

/-- Sample world: the channel is live and the remote side answers every cycle the
same way. -/
def steadyLiveWorld : World :=
  { remote := fun n =>
      match n % 3 with
      | 0 => sampleTokenResponse
      | 1 => sampleUserResponse
      | _ => sampleLiveResponse
    trace := [] }

/-- Sample environment with both credentials set. -/
def sampleEnv (name : String) : String :=
  if name = "CLIENT_ID" then "id" else if name = "CLIENT_SECRET" then "secret" else ""

/-- Sample environment in which `CLIENT_SECRET` is not set. -/
def noSecretEnv (name : String) : String :=
  if name = "CLIENT_ID" then "id" else ""

/-! ## Reading a trace -/

/-- The events `after` has on top of `before`. -/
def emitted (before after : World) : List Event :=
  after.trace.drop before.trace.length

/-- What one run of `monitorChannel` does, as a list of events. -/
def cycleOutput (clientID clientSecret : String) (w : World) : List Event :=
  emitted w (monitorChannel clientID clientSecret w)

/-- The status lines printed, in order: the `fmt.Println` statements of
`monitorChannel`. -/
def statusLines : List Event → List String
  | [] => []
  | Event.println line :: rest =>
    if line = "The channel is live!" ∨ line = "The channel is not live." then
      line :: statusLines rest
    else statusLines rest
  | _ :: rest => statusLines rest

/-- The requests sent, in order. -/
def requestsOf : List Event → List Request
  | [] => []
  | Event.request req :: rest => req :: requestsOf rest
  | _ :: rest => requestsOf rest

/-- The messages logged with `log.Printf`, in order. -/
def logLines : List Event → List String
  | [] => []
  | Event.logPrintf message :: rest => message :: logLines rest
  | _ :: rest => logLines rest

/-- The messages of `log.Fatalf`, in order; empty when the process was not
terminated. -/
def fatalLines : List Event → List String
  | [] => []
  | Event.logFatalf message :: rest => message :: fatalLines rest
  | _ :: rest => fatalLines rest

/-- All three steps of a cycle succeed in `w`: no request fails, every body is a
JSON object, the token response has a string `access_token`, the user-lookup
`data` is a non-empty array whose first element is a record with a string `id`,
and the stream-lookup `data` is an array. -/
def AllStepsSucceed (w : World) : Prop :=
  ∃ (tokenFields userFields streamFields channelData : List (String × JSON))
    (token userID : String) (others streams : List JSON),
    w.remote 0 = Response.ok (Body.object tokenFields) ∧
    tokenFields.lookup "access_token" = some (JSON.str token) ∧
    w.remote 1 = Response.ok (Body.object userFields) ∧
    userFields.lookup "data" = some (JSON.arr (JSON.obj channelData :: others)) ∧
    channelData.lookup "id" = some (JSON.str userID) ∧
    w.remote 2 = Response.ok (Body.object streamFields) ∧
    streamFields.lookup "data" = some (JSON.arr streams)

/-! ## Basic facts -/

theorem emitted_append (w w1 : World) (evs : List Event) (h : w1.trace = w.trace ++ evs) :
    emitted w w1 = evs := by
  simp [emitted, h]

theorem statusLines_append (xs ys : List Event) :
    statusLines (xs ++ ys) = statusLines xs ++ statusLines ys := by
  induction xs with
  | nil => rfl
  | cons e rest ih =>
    cases e with
    | println line =>
      by_cases h : line = "The channel is live!" ∨ line = "The channel is not live."
      · simp [statusLines, h, ih]
      · simp [statusLines, h, ih]
    | _ => simpa [statusLines] using ih

theorem getOAuthToken_world (clientID clientSecret : String) (w : World) :
    (getOAuthToken clientID clientSecret w).2 =
      { remote := fun n => w.remote (n + 1),
        trace := w.trace ++ [Event.request (tokenRequest clientID clientSecret)] } := by
  rcases h0 : w.remote 0 with e | b0
  · simp [getOAuthToken, send, h0]
  rcases b0 with e | _ | f0
  · simp [getOAuthToken, send, unmarshal, h0]
  · simp [getOAuthToken, send, unmarshal, h0]
  rcases hl0 : f0.lookup "access_token" with _ | j0
  · simp [getOAuthToken, send, unmarshal, h0, hl0]
  cases j0 <;> simp [getOAuthToken, send, unmarshal, h0, hl0]

theorem getOAuthToken_ok_iff (clientID clientSecret token : String) (w : World) :
    (getOAuthToken clientID clientSecret w).1 = Except.ok token ↔
      ∃ fields, w.remote 0 = Response.ok (Body.object fields) ∧
        fields.lookup "access_token" = some (JSON.str token) := by
  rcases h0 : w.remote 0 with e | b0
  · simp [getOAuthToken, send, h0]
  rcases b0 with e | _ | f0
  · simp [getOAuthToken, send, unmarshal, h0]
  · simp [getOAuthToken, send, unmarshal, h0]
  rcases hl0 : f0.lookup "access_token" with _ | j0
  · simp [getOAuthToken, send, unmarshal, h0, hl0]
  cases j0 <;> simp [getOAuthToken, send, unmarshal, h0, hl0]

theorem getChannelData_remote (accessToken clientID : String) (w : World) :
    (getChannelData accessToken clientID w).2.remote = fun n => w.remote (n + 1) := by
  rcases h0 : w.remote 0 with e | b0
  · simp [getChannelData, send, h0]
  rcases b0 with e | _ | f0
  · simp [getChannelData, send, unmarshal, h0]
  · simp [getChannelData, send, unmarshal, h0]
  rcases hl0 : f0.lookup "data" with _ | j0
  · simp [getChannelData, send, unmarshal, h0, hl0]
  rcases j0 with _ | _ | _ | _ | items | _
  case arr =>
    rcases items with _ | ⟨first, rest⟩
    · simp [getChannelData, send, unmarshal, h0, hl0]
    · cases first <;> simp [getChannelData, send, unmarshal, emit, h0, hl0]
  all_goals simp [getChannelData, send, unmarshal, h0, hl0]

theorem getChannelData_trace (accessToken clientID : String) (w : World) :
    (getChannelData accessToken clientID w).2.trace =
      w.trace ++ Event.request (usersRequest accessToken clientID) ::
        (match (getChannelData accessToken clientID w).1 with
         | Except.ok channelData => [Event.printChannelData channelData]
         | Except.error _ => []) := by
  rcases h0 : w.remote 0 with e | b0
  · simp [getChannelData, send, h0]
  rcases b0 with e | _ | f0
  · simp [getChannelData, send, unmarshal, h0]
  · simp [getChannelData, send, unmarshal, h0]
  rcases hl0 : f0.lookup "data" with _ | j0
  · simp [getChannelData, send, unmarshal, h0, hl0]
  rcases j0 with _ | _ | _ | _ | items | _
  case arr =>
    rcases items with _ | ⟨first, rest⟩
    · simp [getChannelData, send, unmarshal, h0, hl0]
    · cases first <;> simp [getChannelData, send, unmarshal, emit, h0, hl0]
  all_goals simp [getChannelData, send, unmarshal, h0, hl0]

theorem getChannelData_ok_iff (accessToken clientID : String) (w : World)
    (channelData : List (String × JSON)) :
    (getChannelData accessToken clientID w).1 = Except.ok channelData ↔
      ∃ fields others, w.remote 0 = Response.ok (Body.object fields) ∧
        fields.lookup "data" = some (JSON.arr (JSON.obj channelData :: others)) := by
  rcases h0 : w.remote 0 with e | b0
  · simp [getChannelData, send, h0]
  rcases b0 with e | _ | f0
  · simp [getChannelData, send, unmarshal, h0]
  · simp [getChannelData, send, unmarshal, h0]
  rcases hl0 : f0.lookup "data" with _ | j0
  · simp [getChannelData, send, unmarshal, h0, hl0]
  rcases j0 with _ | _ | _ | _ | items | _
  case arr =>
    rcases items with _ | ⟨first, rest⟩
    · simp [getChannelData, send, unmarshal, h0, hl0]
    · cases first <;> simp [getChannelData, send, unmarshal, emit, h0, hl0]
  all_goals simp [getChannelData, send, unmarshal, h0, hl0]

/-- A cycle in closed form: it appends to the trace what it would do from an
empty history, it consumes one response per request, and both depend on the
next three responses only. -/
theorem monitorChannel_eq (clientID clientSecret : String) (w : World) :
    monitorChannel clientID clientSecret w =
      { remote := fun n => w.remote (n + (requestsOf (monitorChannel clientID clientSecret
          (replay (w.remote 0) (w.remote 1) (w.remote 2))).trace).length),
        trace := w.trace ++ (monitorChannel clientID clientSecret
          (replay (w.remote 0) (w.remote 1) (w.remote 2))).trace } := by
  rcases h0 : w.remote 0 with e | b0
  · simp [monitorChannel, getOAuthToken, isChannelLive, getChannelData, send, unmarshal, emit,
      replay, requestsOf, h0]
  rcases b0 with e | _ | f0
  · simp [monitorChannel, getOAuthToken, isChannelLive, getChannelData, send, unmarshal, emit,
      replay, requestsOf, h0]
  · simp [monitorChannel, getOAuthToken, isChannelLive, getChannelData, send, unmarshal, emit,
      replay, requestsOf, h0]
  rcases hl0 : f0.lookup "access_token" with _ | j0
  · simp [monitorChannel, getOAuthToken, isChannelLive, getChannelData, send, unmarshal, emit,
      replay, requestsOf, h0, hl0]
  rcases j0 with _ | _ | _ | token | _ | _
  case str =>
    rcases h1 : w.remote 1 with e | b1
    · simp [monitorChannel, getOAuthToken, isChannelLive, getChannelData, send, unmarshal, emit,
      replay, requestsOf, h0, hl0, h1]
    rcases b1 with e | _ | f1
    · simp [monitorChannel, getOAuthToken, isChannelLive, getChannelData, send, unmarshal, emit,
      replay, requestsOf, h0, hl0, h1]
    · simp [monitorChannel, getOAuthToken, isChannelLive, getChannelData, send, unmarshal, emit,
      replay, requestsOf, h0, hl0, h1]
    rcases hl1 : f1.lookup "data" with _ | j1
    · simp [monitorChannel, getOAuthToken, isChannelLive, getChannelData, send, unmarshal, emit,
      replay, requestsOf, h0, hl0, h1, hl1]
    rcases j1 with _ | _ | _ | _ | items | _
    case arr =>
      rcases items with _ | ⟨first, rest⟩
      · simp [monitorChannel, getOAuthToken, isChannelLive, getChannelData, send, unmarshal, emit,
      replay, requestsOf, h0, hl0, h1, hl1]
      rcases first with _ | _ | _ | _ | _ | channelData
      case obj =>
        rcases hid : channelData.lookup "id" with _ | j
        · simp [monitorChannel, getOAuthToken, isChannelLive, getChannelData, send, unmarshal, emit,
      replay, requestsOf, h0, hl0, h1, hl1, hid]
        rcases j with _ | _ | _ | userID | _ | _
        case str =>
          rcases h2 : w.remote 2 with e | b2
          · simp [monitorChannel, getOAuthToken, isChannelLive, getChannelData, send, unmarshal, emit,
      replay, requestsOf, h0, hl0, h1, hl1, hid, h2]
          rcases b2 with e | _ | f2
          · simp [monitorChannel, getOAuthToken, isChannelLive, getChannelData, send, unmarshal, emit,
      replay, requestsOf, h0, hl0, h1, hl1, hid, h2]
          · simp [monitorChannel, getOAuthToken, isChannelLive, getChannelData, send, unmarshal, emit,
      replay, requestsOf, h0, hl0, h1, hl1, hid, h2]
          rcases hl2 : f2.lookup "data" with _ | j2
          · simp [monitorChannel, getOAuthToken, isChannelLive, getChannelData, send, unmarshal, emit,
      replay, requestsOf, h0, hl0, h1, hl1, hid, h2, hl2]
          rcases j2 with _ | _ | _ | _ | streams | _
          case arr =>
            rcases streams with _ | ⟨s, more⟩ <;>
              simp [monitorChannel, getOAuthToken, isChannelLive, getChannelData, send, unmarshal, emit,
      replay, requestsOf, h0, hl0, h1, hl1, hid, h2, hl2]
          all_goals simp [monitorChannel, getOAuthToken, isChannelLive, getChannelData, send, unmarshal, emit,
      replay, requestsOf, h0, hl0, h1, hl1, hid, h2, hl2]
        all_goals simp [monitorChannel, getOAuthToken, isChannelLive, getChannelData, send, unmarshal, emit,
      replay, requestsOf, h0, hl0, h1, hl1, hid]
      all_goals simp [monitorChannel, getOAuthToken, isChannelLive, getChannelData, send, unmarshal, emit,
      replay, requestsOf, h0, hl0, h1, hl1]
    all_goals simp [monitorChannel, getOAuthToken, isChannelLive, getChannelData, send, unmarshal, emit,
      replay, requestsOf, h0, hl0, h1, hl1]
  all_goals simp [monitorChannel, getOAuthToken, isChannelLive, getChannelData, send, unmarshal, emit,
      replay, requestsOf, h0, hl0]

theorem cycleOutput_eq (clientID clientSecret : String) (w : World) :
    cycleOutput clientID clientSecret w =
      (monitorChannel clientID clientSecret
        (replay (w.remote 0) (w.remote 1) (w.remote 2))).trace := by
  apply emitted_append
  rw [monitorChannel_eq]

set_option maxHeartbeats 4000000 in
/-- What a cycle reports: it never calls `log.Fatalf`, it prints a status line
exactly when all three steps succeed, and it emits one line in all (a status
line or a logged error). -/
theorem cycle_report (clientID clientSecret : String) (w : World) :
    fatalLines (cycleOutput clientID clientSecret w) = [] ∧
    (statusLines (cycleOutput clientID clientSecret w) ≠ [] ↔ AllStepsSucceed w) ∧
    (statusLines (cycleOutput clientID clientSecret w)).length +
      (logLines (cycleOutput clientID clientSecret w)).length = 1 := by
  rcases h0 : w.remote 0 with e | b0
  · simp [cycleOutput_eq, monitorChannel, getOAuthToken, isChannelLive, getChannelData, send,
      unmarshal, emit, replay, statusLines, logLines, fatalLines, AllStepsSucceed, h0]
  rcases b0 with e | _ | f0
  · simp [cycleOutput_eq, monitorChannel, getOAuthToken, isChannelLive, getChannelData, send,
      unmarshal, emit, replay, statusLines, logLines, fatalLines, AllStepsSucceed, h0]
  · simp [cycleOutput_eq, monitorChannel, getOAuthToken, isChannelLive, getChannelData, send,
      unmarshal, emit, replay, statusLines, logLines, fatalLines, AllStepsSucceed, h0]
  rcases hl0 : f0.lookup "access_token" with _ | j0
  · simp [cycleOutput_eq, monitorChannel, getOAuthToken, isChannelLive, getChannelData, send,
      unmarshal, emit, replay, statusLines, logLines, fatalLines, AllStepsSucceed, h0, hl0]
  rcases j0 with _ | _ | _ | token | _ | _
  case str =>
    rcases h1 : w.remote 1 with e | b1
    · simp [cycleOutput_eq, monitorChannel, getOAuthToken, isChannelLive, getChannelData, send,
      unmarshal, emit, replay, statusLines, logLines, fatalLines, AllStepsSucceed, h0, hl0, h1]
    rcases b1 with e | _ | f1
    · simp [cycleOutput_eq, monitorChannel, getOAuthToken, isChannelLive, getChannelData, send,
      unmarshal, emit, replay, statusLines, logLines, fatalLines, AllStepsSucceed, h0, hl0, h1]
    · simp [cycleOutput_eq, monitorChannel, getOAuthToken, isChannelLive, getChannelData, send,
      unmarshal, emit, replay, statusLines, logLines, fatalLines, AllStepsSucceed, h0, hl0, h1]
    rcases hl1 : f1.lookup "data" with _ | j1
    · simp [cycleOutput_eq, monitorChannel, getOAuthToken, isChannelLive, getChannelData, send,
      unmarshal, emit, replay, statusLines, logLines, fatalLines, AllStepsSucceed, h0, hl0, h1, hl1]
    rcases j1 with _ | _ | _ | _ | items | _
    case arr =>
      rcases items with _ | ⟨first, rest⟩
      · simp [cycleOutput_eq, monitorChannel, getOAuthToken, isChannelLive, getChannelData, send,
      unmarshal, emit, replay, statusLines, logLines, fatalLines, AllStepsSucceed, h0, hl0, h1, hl1]
      rcases first with _ | _ | _ | _ | _ | channelData
      case obj =>
        rcases hid : channelData.lookup "id" with _ | j
        · simp [cycleOutput_eq, monitorChannel, getOAuthToken, isChannelLive, getChannelData, send,
      unmarshal, emit, replay, statusLines, logLines, fatalLines, AllStepsSucceed, h0, hl0, h1, hl1, hid]
        rcases j with _ | _ | _ | userID | _ | _
        case str =>
          rcases h2 : w.remote 2 with e | b2
          · simp [cycleOutput_eq, monitorChannel, getOAuthToken, isChannelLive, getChannelData, send,
      unmarshal, emit, replay, statusLines, logLines, fatalLines, AllStepsSucceed, h0, hl0, h1, hl1, hid, h2]
          rcases b2 with e | _ | f2
          · simp [cycleOutput_eq, monitorChannel, getOAuthToken, isChannelLive, getChannelData, send,
      unmarshal, emit, replay, statusLines, logLines, fatalLines, AllStepsSucceed, h0, hl0, h1, hl1, hid, h2]
          · simp [cycleOutput_eq, monitorChannel, getOAuthToken, isChannelLive, getChannelData, send,
      unmarshal, emit, replay, statusLines, logLines, fatalLines, AllStepsSucceed, h0, hl0, h1, hl1, hid, h2]
          rcases hl2 : f2.lookup "data" with _ | j2
          · simp [cycleOutput_eq, monitorChannel, getOAuthToken, isChannelLive, getChannelData, send,
      unmarshal, emit, replay, statusLines, logLines, fatalLines, AllStepsSucceed, h0, hl0, h1, hl1, hid, h2, hl2]
          rcases j2 with _ | _ | _ | _ | streams | _
          case arr =>
            rcases streams with _ | ⟨s, more⟩ <;>
              simp [cycleOutput_eq, monitorChannel, getOAuthToken, isChannelLive, getChannelData, send,
      unmarshal, emit, replay, statusLines, logLines, fatalLines, AllStepsSucceed, h0, hl0, h1, hl1, hid, h2, hl2]
          all_goals simp [cycleOutput_eq, monitorChannel, getOAuthToken, isChannelLive, getChannelData, send,
      unmarshal, emit, replay, statusLines, logLines, fatalLines, AllStepsSucceed, h0, hl0, h1, hl1, hid, h2, hl2]
        all_goals simp [cycleOutput_eq, monitorChannel, getOAuthToken, isChannelLive, getChannelData, send,
      unmarshal, emit, replay, statusLines, logLines, fatalLines, AllStepsSucceed, h0, hl0, h1, hl1, hid]
      all_goals simp [cycleOutput_eq, monitorChannel, getOAuthToken, isChannelLive, getChannelData, send,
      unmarshal, emit, replay, statusLines, logLines, fatalLines, AllStepsSucceed, h0, hl0, h1, hl1]
    all_goals simp [cycleOutput_eq, monitorChannel, getOAuthToken, isChannelLive, getChannelData, send,
      unmarshal, emit, replay, statusLines, logLines, fatalLines, AllStepsSucceed, h0, hl0, h1, hl1]
  all_goals simp [cycleOutput_eq, monitorChannel, getOAuthToken, isChannelLive, getChannelData, send,
      unmarshal, emit, replay, statusLines, logLines, fatalLines, AllStepsSucceed, h0, hl0]

/-- Later ticks do the same on two worlds whose remaining responses agree. -/
theorem ticks_trace (clientID clientSecret : String) (n : Nat) :
    ∀ wa wb : World, wa.remote = wb.remote →
      ∃ evs, (ticks clientID clientSecret n wa).trace = wa.trace ++ evs ∧
        (ticks clientID clientSecret n wb).trace = wb.trace ++ evs := by
  induction n with
  | zero => intro wa wb _; exact ⟨[], by simp [ticks], by simp [ticks]⟩
  | succ n ih =>
    intro wa wb h
    have ha := monitorChannel_eq clientID clientSecret wa
    have hb := monitorChannel_eq clientID clientSecret wb
    rw [h] at ha
    obtain ⟨evs, h1, h2⟩ := ih (monitorChannel clientID clientSecret wa)
      (monitorChannel clientID clientSecret wb) (by rw [ha, hb])
    refine ⟨(monitorChannel clientID clientSecret
      (replay (wb.remote 0) (wb.remote 1) (wb.remote 2))).trace ++ evs, ?_, ?_⟩
    · simp only [ticks, h1]
      rw [ha, List.append_assoc]
    · simp only [ticks, h2]
      rw [hb, List.append_assoc]

/-- The trace of a cycle in which all three steps succeed. -/
theorem monitorChannel_success_trace (clientID clientSecret : String) (w : World)
    (tokenFields userFields streamFields channelData : List (String × JSON))
    (token userID : String) (others streams : List JSON)
    (hTokenResp : w.remote 0 = Response.ok (Body.object tokenFields))
    (hToken : tokenFields.lookup "access_token" = some (JSON.str token))
    (hUserResp : w.remote 1 = Response.ok (Body.object userFields))
    (hUserData : userFields.lookup "data" = some (JSON.arr (JSON.obj channelData :: others)))
    (hID : channelData.lookup "id" = some (JSON.str userID))
    (hStreamResp : w.remote 2 = Response.ok (Body.object streamFields))
    (hStreams : streamFields.lookup "data" = some (JSON.arr streams)) :
    cycleOutput clientID clientSecret w =
      [Event.request (tokenRequest clientID clientSecret),
       Event.request (usersRequest token clientID),
       Event.printChannelData channelData,
       Event.request (streamsRequest token clientID userID),
       Event.println
        (if streams.length > 0 then "The channel is live!" else "The channel is not live.")] := by
  apply emitted_append
  simp [monitorChannel, getOAuthToken, isChannelLive, getChannelData, send, unmarshal, emit,
    hTokenResp, hToken, hUserResp, hUserData, hID, hStreamResp, hStreams]
  cases streams <;> simp

/-! ## The claims -/

/-- Claim C1: when the token response carries a string `access_token`, the
user-lookup `data` is a non-empty array whose first element is a record with a
string `id`, and the stream-lookup `data` is an array, one run of
`monitorChannel` prints exactly one status line: "The channel is live!" when the
stream array is non-empty, "The channel is not live." when it is empty.  This
holds for every pair of credentials, the non-empty ones included. -/
theorem monitorChannel_prints_one_status (clientID clientSecret : String) (w : World)
    (tokenFields userFields streamFields channelData : List (String × JSON))
    (token userID : String) (others streams : List JSON)
    (hTokenResp : w.remote 0 = Response.ok (Body.object tokenFields))
    (hToken : tokenFields.lookup "access_token" = some (JSON.str token))
    (hUserResp : w.remote 1 = Response.ok (Body.object userFields))
    (hUserData : userFields.lookup "data" = some (JSON.arr (JSON.obj channelData :: others)))
    (hID : channelData.lookup "id" = some (JSON.str userID))
    (hStreamResp : w.remote 2 = Response.ok (Body.object streamFields))
    (hStreams : streamFields.lookup "data" = some (JSON.arr streams)) :
    (streams ≠ [] → statusLines (cycleOutput clientID clientSecret w) = ["The channel is live!"]) ∧
    (streams = [] →
      statusLines (cycleOutput clientID clientSecret w) = ["The channel is not live."]) := by
  rw [monitorChannel_success_trace clientID clientSecret w tokenFields userFields streamFields
    channelData token userID others streams hTokenResp hToken hUserResp hUserData hID
    hStreamResp hStreams]
  cases streams <;> simp [statusLines]

/-- Claim C1 at sample responses: one live channel, one offline channel. -/
theorem monitorChannel_prints_one_status_samples :
    statusLines (cycleOutput "id" "secret" liveWorld) = ["The channel is live!"] ∧
    statusLines (cycleOutput "id" "secret" offlineWorld) = ["The channel is not live."] :=
  ⟨(monitorChannel_prints_one_status "id" "secret" liveWorld _ _ _ _ "tok123" "12345" [] _
      rfl rfl rfl rfl rfl rfl rfl).1 (by simp),
   (monitorChannel_prints_one_status "id" "secret" offlineWorld _ _ _ _ "tok123" "12345" [] _
      rfl rfl rfl rfl rfl rfl rfl).2 rfl⟩

/-- Claim C2: when the channel lookup succeeds with a string `id` and the
stream-lookup response (the answer to the second request of `isChannelLive`) is
a JSON object whose `data` is an array, `isChannelLive` returns no error, and it
returns true if and only if that array has at least one element. -/
theorem isChannelLive_true_iff_stream (accessToken clientID : String) (w : World)
    (channelData streamFields : List (String × JSON)) (userID : String) (streams : List JSON)
    (hChannel : (getChannelData accessToken clientID w).1 = Except.ok channelData)
    (hID : channelData.lookup "id" = some (JSON.str userID))
    (hStreamResp : w.remote 1 = Response.ok (Body.object streamFields))
    (hStreams : streamFields.lookup "data" = some (JSON.arr streams)) :
    ∃ live, (isChannelLive accessToken clientID w).1 = Except.ok live ∧
      (live = true ↔ 1 ≤ streams.length) := by
  have hRemote := getChannelData_remote accessToken clientID w
  rcases hg : getChannelData accessToken clientID w with ⟨res, w1⟩
  rw [hg] at hChannel hRemote
  simp only at hChannel hRemote
  have h0 : w1.remote 0 = Response.ok (Body.object streamFields) := by
    rw [hRemote]; exact hStreamResp
  refine ⟨decide (streams.length > 0), ?_, by simp [Nat.succ_le_iff]⟩
  simp [isChannelLive, hg, hChannel, hID, send, h0, unmarshal, hStreams]

/-- Claim C2 at a sample world with one active stream. -/
theorem isChannelLive_true_iff_stream_live :
    ∃ live, (isChannelLive "tok123" "id" (skipNext liveWorld)).1 = Except.ok live ∧
      (live = true ↔ 1 ≤ [JSON.obj [("user_id", JSON.str "12345"),
        ("type", JSON.str "live")]].length) :=
  isChannelLive_true_iff_stream "tok123" "id" (skipNext liveWorld)
    [("id", JSON.str "12345"), ("login", JSON.str "zackrawrr")] _ "12345" _ rfl rfl rfl rfl

/-- Claim C3: when the body of the token response has no `access_token` field
(whether or not it decodes as an object), the cycle stops after the token
request: that request is the only one sent, no status line is printed, and the
error is logged. -/
theorem monitorChannel_aborts_without_token (clientID clientSecret : String) (w : World)
    (body : Body)
    (hTokenResp : w.remote 0 = Response.ok body)
    (hNoToken : ∀ fields, body = Body.object fields → fields.lookup "access_token" = none) :
    requestsOf (cycleOutput clientID clientSecret w) = [tokenRequest clientID clientSecret] ∧
    statusLines (cycleOutput clientID clientSecret w) = [] ∧
    ∃ err : GoError, cycleOutput clientID clientSecret w =
      [Event.request (tokenRequest clientID clientSecret),
       Event.logPrintf ("Error fetching OAuth token: " ++ err.text)] := by
  have key : ∃ err : GoError, cycleOutput clientID clientSecret w =
      [Event.request (tokenRequest clientID clientSecret),
       Event.logPrintf ("Error fetching OAuth token: " ++ err.text)] := by
    rcases body with e | _ | fields
    · exact ⟨e, emitted_append _ _ _ (by
        simp [monitorChannel, getOAuthToken, send, unmarshal, emit, hTokenResp])⟩
    · exact ⟨errorf "failed to retrieve access token", emitted_append _ _ _ (by
        simp [monitorChannel, getOAuthToken, send, unmarshal, emit, hTokenResp])⟩
    · exact ⟨errorf "failed to retrieve access token", emitted_append _ _ _ (by
        simp [monitorChannel, getOAuthToken, send, unmarshal, emit, hTokenResp,
          hNoToken fields rfl])⟩
  obtain ⟨err, h⟩ := key
  exact ⟨by simp [h, requestsOf], by simp [h, statusLines], err, h⟩

/-- Claim C3 at a sample token response without `access_token`. -/
theorem monitorChannel_aborts_without_token_unauthorized :
    requestsOf (cycleOutput "id" "secret" (replay sampleUnauthorized sampleUserResponse
      sampleLiveResponse)) = [tokenRequest "id" "secret"] ∧
    statusLines (cycleOutput "id" "secret" (replay sampleUnauthorized sampleUserResponse
      sampleLiveResponse)) = [] ∧
    ∃ err : GoError, cycleOutput "id" "secret" (replay sampleUnauthorized sampleUserResponse
      sampleLiveResponse) =
      [Event.request (tokenRequest "id" "secret"),
       Event.logPrintf ("Error fetching OAuth token: " ++ err.text)] :=
  monitorChannel_aborts_without_token "id" "secret"
    (replay sampleUnauthorized sampleUserResponse sampleLiveResponse) _ rfl
    (by intro fields h; cases h; rfl)

/-- Claim C4: when the token is obtained and the `data` array of the
channel-lookup response is empty, `getChannelData` fails with the error
"no data found for channel", the stream lookup is never requested, and
`monitorChannel` logs the error and prints no status line. -/
theorem monitorChannel_no_data_found (clientID clientSecret : String) (w : World)
    (tokenFields userFields : List (String × JSON)) (token : String)
    (hTokenResp : w.remote 0 = Response.ok (Body.object tokenFields))
    (hToken : tokenFields.lookup "access_token" = some (JSON.str token))
    (hUserResp : w.remote 1 = Response.ok (Body.object userFields))
    (hUserData : userFields.lookup "data" = some (JSON.arr [])) :
    (getChannelData token clientID (getOAuthToken clientID clientSecret w).2).1 =
      Except.error (GoError.mk "no data found for channel") ∧
    cycleOutput clientID clientSecret w =
      [Event.request (tokenRequest clientID clientSecret),
       Event.request (usersRequest token clientID),
       Event.logPrintf "Error checking if channel is live: no data found for channel"] ∧
    requestsOf (cycleOutput clientID clientSecret w) =
      [tokenRequest clientID clientSecret, usersRequest token clientID] ∧
    statusLines (cycleOutput clientID clientSecret w) = [] := by
  have h : cycleOutput clientID clientSecret w =
      [Event.request (tokenRequest clientID clientSecret),
       Event.request (usersRequest token clientID),
       Event.logPrintf "Error checking if channel is live: no data found for channel"] := by
    apply emitted_append
    simp [monitorChannel, getOAuthToken, isChannelLive, getChannelData, send, unmarshal, emit,
      errorf, hTokenResp, hToken, hUserResp, hUserData]
  refine ⟨?_, h, by simp [h, requestsOf], by simp [h, statusLines]⟩
  simp [getOAuthToken_world, getChannelData, send, unmarshal, errorf, hUserResp, hUserData]

/-- Claim C4 at a sample world whose user lookup finds no record. -/
theorem monitorChannel_no_data_found_unknown_channel :
    (getChannelData "tok123" "id" (getOAuthToken "id" "secret"
      (replay sampleTokenResponse sampleEmptyResponse sampleLiveResponse)).2).1 =
      Except.error (GoError.mk "no data found for channel") ∧
    cycleOutput "id" "secret" (replay sampleTokenResponse sampleEmptyResponse sampleLiveResponse) =
      [Event.request (tokenRequest "id" "secret"),
       Event.request (usersRequest "tok123" "id"),
       Event.logPrintf "Error checking if channel is live: no data found for channel"] ∧
    requestsOf (cycleOutput "id" "secret"
      (replay sampleTokenResponse sampleEmptyResponse sampleLiveResponse)) =
      [tokenRequest "id" "secret", usersRequest "tok123" "id"] ∧
    statusLines (cycleOutput "id" "secret"
      (replay sampleTokenResponse sampleEmptyResponse sampleLiveResponse)) = [] :=
  monitorChannel_no_data_found "id" "secret"
    (replay sampleTokenResponse sampleEmptyResponse sampleLiveResponse) _ _ "tok123"
    rfl rfl rfl rfl

/-- Claim C5: `monitorChannel` prints a status line if and only if all three
steps succeed (no request fails, every body is a JSON object, the token response
has a string `access_token`, the user-lookup `data` is a non-empty array whose
first element is a record with a string `id`, the stream-lookup `data` is an
array).  In every other case it logs exactly one error, prints no status line,
and returns; it never terminates the process. -/
theorem monitorChannel_status_iff_all_steps (clientID clientSecret : String) (w : World) :
    (statusLines (cycleOutput clientID clientSecret w) ≠ [] ↔ AllStepsSucceed w) ∧
    (¬ AllStepsSucceed w →
      statusLines (cycleOutput clientID clientSecret w) = [] ∧
      ∃ message, logLines (cycleOutput clientID clientSecret w) = [message]) ∧
    fatalLines (cycleOutput clientID clientSecret w) = [] := by
  obtain ⟨hFatal, hIff, hOne⟩ := cycle_report clientID clientSecret w
  refine ⟨hIff, ?_, hFatal⟩
  intro hFail
  have hNone : statusLines (cycleOutput clientID clientSecret w) = [] := by
    by_contra hne
    exact hFail (hIff.mp hne)
  refine ⟨hNone, ?_⟩
  rw [hNone] at hOne
  simp only [List.length_nil, Nat.zero_add] at hOne
  exact List.length_eq_one.mp hOne

/-- Claim C6: when `CLIENT_ID` or `CLIENT_SECRET` is empty (or unset), `main`
ends in `log.Fatalf` with exit code 1: the fatal message is the only thing it
does, no request is sent and no response is consumed. -/
theorem main_fatal_without_credentials (loadErr : Option GoError) (getenv : String → String)
    (w : World) (hMissing : getenv "CLIENT_ID" = "" ∨ getenv "CLIENT_SECRET" = "") :
    ∃ w1, main loadErr getenv w = Process.exited 1 w1 ∧
      w1.remote = w.remote ∧
      requestsOf (emitted w w1) = [] ∧
      ∃ message, emitted w w1 = [Event.logFatalf message] := by
  cases loadErr with
  | some err =>
    exact ⟨_, rfl, rfl, by simp [emitted, emit, requestsOf],
      "Error loading .env file: " ++ err.text, by simp [emitted, emit]⟩
  | none =>
    refine ⟨emit (Event.logFatalf
      "CLIENT_ID and CLIENT_SECRET must be set in the environment") w, ?_, rfl,
      by simp [emitted, emit, requestsOf],
      "CLIENT_ID and CLIENT_SECRET must be set in the environment", by simp [emitted, emit]⟩
    simp [main, hMissing]

/-- Claim C6 at a sample environment without `CLIENT_SECRET`. -/
theorem main_fatal_without_credentials_no_secret :
    ∃ w1, main none noSecretEnv liveWorld = Process.exited 1 w1 ∧
      w1.remote = liveWorld.remote ∧
      requestsOf (emitted liveWorld w1) = [] ∧
      ∃ message, emitted liveWorld w1 = [Event.logFatalf message] :=
  main_fatal_without_credentials none noSecretEnv liveWorld (Or.inr (by decide))

/-- Claim C7: in a cycle in which all three steps succeed, exactly three
requests are sent, in the order token, user lookup, stream lookup.  The two
lookups carry `Client-ID` = the client id and `Authorization` = "Bearer "
followed by the `access_token` of the token response of this cycle; the user lookup
carries `login` = the constant channel name, the stream lookup carries
`user_id` = the `id` of the first element of the user-lookup `data`. -/
theorem monitorChannel_requests_chained (clientID clientSecret : String) (w : World)
    (tokenFields userFields streamFields channelData : List (String × JSON))
    (token userID : String) (others streams : List JSON)
    (hTokenResp : w.remote 0 = Response.ok (Body.object tokenFields))
    (hToken : tokenFields.lookup "access_token" = some (JSON.str token))
    (hUserResp : w.remote 1 = Response.ok (Body.object userFields))
    (hUserData : userFields.lookup "data" = some (JSON.arr (JSON.obj channelData :: others)))
    (hID : channelData.lookup "id" = some (JSON.str userID))
    (hStreamResp : w.remote 2 = Response.ok (Body.object streamFields))
    (hStreams : streamFields.lookup "data" = some (JSON.arr streams)) :
    requestsOf (cycleOutput clientID clientSecret w) =
      [ { method := Method.POST
          url := "https://id.twitch.tv/oauth2/token"
          headers := []
          query := []
          form := [("client_id", clientID), ("client_secret", clientSecret),
                   ("grant_type", "client_credentials")] },
        { method := Method.GET
          url := "https://api.twitch.tv/helix/users"
          headers := [("Client-ID", clientID), ("Authorization", "Bearer " ++ token)]
          query := [("login", "zackrawrr")]
          form := [] },
        { method := Method.GET
          url := "https://api.twitch.tv/helix/streams"
          headers := [("Client-ID", clientID), ("Authorization", "Bearer " ++ token)]
          query := [("user_id", userID)]
          form := [] } ] := by
  rw [monitorChannel_success_trace clientID clientSecret w tokenFields userFields streamFields
    channelData token userID others streams hTokenResp hToken hUserResp hUserData hID
    hStreamResp hStreams]
  simp [requestsOf, tokenRequest, usersRequest, streamsRequest, channelName]

/-- Claim C7 at the sample live world. -/
theorem monitorChannel_requests_chained_live :
    requestsOf (cycleOutput "id" "secret" liveWorld) =
      [ { method := Method.POST
          url := "https://id.twitch.tv/oauth2/token"
          headers := []
          query := []
          form := [("client_id", "id"), ("client_secret", "secret"),
                   ("grant_type", "client_credentials")] },
        { method := Method.GET
          url := "https://api.twitch.tv/helix/users"
          headers := [("Client-ID", "id"), ("Authorization", "Bearer " ++ "tok123")]
          query := [("login", "zackrawrr")]
          form := [] },
        { method := Method.GET
          url := "https://api.twitch.tv/helix/streams"
          headers := [("Client-ID", "id"), ("Authorization", "Bearer " ++ "tok123")]
          query := [("user_id", "12345")]
          form := [] } ] :=
  monitorChannel_requests_chained "id" "secret" liveWorld _ _ _ _ "tok123" "12345" [] _
    rfl rfl rfl rfl rfl rfl rfl

/-- Claim C8, as stated, fails: a channel-lookup body that is an object without
a `data` field (here the body sent with a 401 status), and one whose `data` is a
string, both make `getChannelData` fail with "no data found for channel", not
with an "invalid data format" error. -/
theorem getChannelData_shape_counterexample :
    (getChannelData "tok123" "id"
        (replay sampleUnauthorized sampleLiveResponse sampleLiveResponse)).1 =
      Except.error (GoError.mk "no data found for channel") ∧
    (getChannelData "tok123" "id"
        (replay sampleUnauthorized sampleLiveResponse sampleLiveResponse)).1 ≠
      Except.error (GoError.mk "invalid data format for channel") ∧
    (getChannelData "tok123" "id"
        (replay (Response.ok (Body.object [("data", JSON.str "none")]))
          sampleLiveResponse sampleLiveResponse)).1 =
      Except.error (GoError.mk "no data found for channel") ∧
    (getChannelData "tok123" "id"
        (replay (Response.ok (Body.object [("data", JSON.str "none")]))
          sampleLiveResponse sampleLiveResponse)).1 ≠
      Except.error (GoError.mk "invalid data format for channel") := by
  refine ⟨rfl, ?_, rfl, ?_⟩
  · have h : (getChannelData "tok123" "id"
        (replay sampleUnauthorized sampleLiveResponse sampleLiveResponse)).1 =
        Except.error (GoError.mk "no data found for channel") := rfl
    rw [h]; simp
  · have h : (getChannelData "tok123" "id"
        (replay (Response.ok (Body.object [("data", JSON.str "none")]))
          sampleLiveResponse sampleLiveResponse)).1 =
        Except.error (GoError.mk "no data found for channel") := rfl
    rw [h]; simp

/-- Claim C8, amended: for a channel-lookup body that is a JSON object,
`getChannelData` fails with "invalid data format for channel" exactly when
`data` is a non-empty array whose first element is not a key/value record, and
with "no data found for channel" exactly when `data` is absent, is not an array,
or is an empty array. -/
theorem getChannelData_error_kinds (accessToken clientID : String) (w : World)
    (fields : List (String × JSON))
    (hResp : w.remote 0 = Response.ok (Body.object fields)) :
    ((getChannelData accessToken clientID w).1 =
        Except.error (GoError.mk "invalid data format for channel") ↔
      ∃ first rest, fields.lookup "data" = some (JSON.arr (first :: rest)) ∧
        ∀ channelData, first ≠ JSON.obj channelData) ∧
    ((getChannelData accessToken clientID w).1 =
        Except.error (GoError.mk "no data found for channel") ↔
      (fields.lookup "data" = none ∨
       (∃ value, fields.lookup "data" = some value ∧ ∀ items, value ≠ JSON.arr items) ∨
       fields.lookup "data" = some (JSON.arr []))) := by
  rcases hl : fields.lookup "data" with _ | j
  · simp [getChannelData, send, unmarshal, errorf, hResp, hl]
  rcases j with _ | _ | _ | _ | items | _
  case arr =>
    rcases items with _ | ⟨first, rest⟩
    · simp [getChannelData, send, unmarshal, errorf, hResp, hl]
    · cases first <;> simp [getChannelData, send, unmarshal, errorf, hResp, hl]
  all_goals simp [getChannelData, send, unmarshal, errorf, hResp, hl]

/-- Claim C8, amended, at a sample body without `data`. -/
theorem getChannelData_error_kinds_unauthorized :
    ((getChannelData "tok123" "id"
        (replay sampleUnauthorized sampleLiveResponse sampleLiveResponse)).1 =
        Except.error (GoError.mk "invalid data format for channel") ↔
      ∃ first rest, List.lookup "data" [("error", JSON.str "Unauthorized"),
          ("status", JSON.number "401"), ("message", JSON.str "Invalid OAuth token")] =
            some (JSON.arr (first :: rest)) ∧
        ∀ channelData, first ≠ JSON.obj channelData) ∧
    ((getChannelData "tok123" "id"
        (replay sampleUnauthorized sampleLiveResponse sampleLiveResponse)).1 =
        Except.error (GoError.mk "no data found for channel") ↔
      (List.lookup "data" [("error", JSON.str "Unauthorized"),
          ("status", JSON.number "401"), ("message", JSON.str "Invalid OAuth token")] = none ∨
       (∃ value, List.lookup "data" [("error", JSON.str "Unauthorized"),
          ("status", JSON.number "401"), ("message", JSON.str "Invalid OAuth token")] =
            some value ∧ ∀ items, value ≠ JSON.arr items) ∨
       List.lookup "data" [("error", JSON.str "Unauthorized"),
          ("status", JSON.number "401"), ("message", JSON.str "Invalid OAuth token")] =
            some (JSON.arr []))) :=
  getChannelData_error_kinds "tok123" "id"
    (replay sampleUnauthorized sampleLiveResponse sampleLiveResponse) _ rfl

/-- Claim C9: what a cycle prints and logs is a function of the credentials and
of the three responses alone.  Two runs with the same credentials that meet the
same three responses emit the same events, whatever happened before either of
them (the worlds `w` and `w2` are arbitrary otherwise: any history, any later
responses). -/
theorem monitorChannel_deterministic (clientID clientSecret : String) (w w2 : World)
    (h0 : w.remote 0 = w2.remote 0) (h1 : w.remote 1 = w2.remote 1)
    (h2 : w.remote 2 = w2.remote 2) :
    cycleOutput clientID clientSecret w = cycleOutput clientID clientSecret w2 := by
  rw [cycleOutput_eq, cycleOutput_eq, h0, h1, h2]

/-- Claim C9 for two runs in a row against a remote side that answers both the same
way. -/
theorem monitorChannel_deterministic_second_run :
    cycleOutput "id" "secret" steadyLiveWorld =
      cycleOutput "id" "secret" (monitorChannel "id" "secret" steadyLiveWorld) :=
  monitorChannel_deterministic "id" "secret" steadyLiveWorld
    (monitorChannel "id" "secret" steadyLiveWorld) rfl rfl rfl

/-- Claim C10: with both credentials set, `main` runs the initial cycle and then
calls `getChannelData(clientID, clientSecret)`: one user-lookup request with
`Authorization` = "Bearer " + CLIENT_ID and `Client-ID` = CLIENT_SECRET.  The
call adds that request and at most a channel-data print to the trace of the
initial cycle, which it leaves as it is: no status line, no logged error, no
fatal exit.  It consumes one response, `main` goes on to park, and the later
cycles emit exactly what they would emit had the call not been made and its
response not been there. -/
theorem main_extra_lookup_has_no_effect (getenv : String → String) (w : World)
    (hID : getenv "CLIENT_ID" ≠ "") (hSecret : getenv "CLIENT_SECRET" ≠ "") :
    ∃ w2 printed,
      main none getenv w = Process.parked (getenv "CLIENT_ID") (getenv "CLIENT_SECRET") w2 ∧
      w2.trace = (monitorChannel (getenv "CLIENT_ID") (getenv "CLIENT_SECRET") w).trace ++
        Event.request
          { method := Method.GET
            url := "https://api.twitch.tv/helix/users"
            headers := [("Client-ID", getenv "CLIENT_SECRET"),
                        ("Authorization", "Bearer " ++ getenv "CLIENT_ID")]
            query := [("login", "zackrawrr")]
            form := [] } :: printed ∧
      statusLines printed = [] ∧ logLines printed = [] ∧ fatalLines printed = [] ∧
      requestsOf printed = [] ∧
      w2.remote =
        (skipNext (monitorChannel (getenv "CLIENT_ID") (getenv "CLIENT_SECRET") w)).remote ∧
      ∀ n, (ticks (getenv "CLIENT_ID") (getenv "CLIENT_SECRET") n w2).trace =
        w2.trace ++
          emitted (skipNext (monitorChannel (getenv "CLIENT_ID") (getenv "CLIENT_SECRET") w))
            (ticks (getenv "CLIENT_ID") (getenv "CLIENT_SECRET") n
              (skipNext (monitorChannel (getenv "CLIENT_ID") (getenv "CLIENT_SECRET") w))) := by
  have hRemote := getChannelData_remote (getenv "CLIENT_ID") (getenv "CLIENT_SECRET")
    (monitorChannel (getenv "CLIENT_ID") (getenv "CLIENT_SECRET") w)
  refine ⟨_, _, by simp [main, hID, hSecret], getChannelData_trace _ _ _, ?_, ?_, ?_, ?_,
    hRemote, ?_⟩
  · split <;> rfl
  · split <;> rfl
  · split <;> rfl
  · split <;> rfl
  · intro n
    obtain ⟨evs, h1, h2⟩ := ticks_trace (getenv "CLIENT_ID") (getenv "CLIENT_SECRET") n _
      (skipNext (monitorChannel (getenv "CLIENT_ID") (getenv "CLIENT_SECRET") w)) hRemote
    rw [h1, emitted_append _ _ _ h2]

/-- Claim C10 at the sample environment and the sample live world. -/
theorem main_extra_lookup_has_no_effect_sample :
    ∃ w2 printed,
      main none sampleEnv liveWorld =
        Process.parked (sampleEnv "CLIENT_ID") (sampleEnv "CLIENT_SECRET") w2 ∧
      w2.trace = (monitorChannel (sampleEnv "CLIENT_ID") (sampleEnv "CLIENT_SECRET")
          liveWorld).trace ++
        Event.request
          { method := Method.GET
            url := "https://api.twitch.tv/helix/users"
            headers := [("Client-ID", sampleEnv "CLIENT_SECRET"),
                        ("Authorization", "Bearer " ++ sampleEnv "CLIENT_ID")]
            query := [("login", "zackrawrr")]
            form := [] } :: printed ∧
      statusLines printed = [] ∧ logLines printed = [] ∧ fatalLines printed = [] ∧
      requestsOf printed = [] ∧
      w2.remote =
        (skipNext (monitorChannel (sampleEnv "CLIENT_ID") (sampleEnv "CLIENT_SECRET")
          liveWorld)).remote ∧
      ∀ n, (ticks (sampleEnv "CLIENT_ID") (sampleEnv "CLIENT_SECRET") n w2).trace =
        w2.trace ++
          emitted (skipNext (monitorChannel (sampleEnv "CLIENT_ID") (sampleEnv "CLIENT_SECRET")
              liveWorld))
            (ticks (sampleEnv "CLIENT_ID") (sampleEnv "CLIENT_SECRET") n
              (skipNext (monitorChannel (sampleEnv "CLIENT_ID") (sampleEnv "CLIENT_SECRET")
                liveWorld))) :=
  main_extra_lookup_has_no_effect sampleEnv liveWorld (by decide) (by decide)

end TwitchMonitor
